import Mathlib

/-!
Verification of the update-dispatch and callback-routing core of the
BrenzoLio-PTB repository, as a shallow embedding in Lean 4.

Strings are modelled as `List Char`.  Each definition carries the name of the
Python function it embeds (from `src/telegram/...`) and mirrors it statement
by statement; Python exceptions become explicit error values.
-/

namespace BrenzoLio

/-! ## Binary token codec — `src/telegram/utils/binaryencoder.py` -/

/-- `ZERO_CHAR_0 = u"‌"` (ZERO-WIDTH-NON-JOINER), the code point
standing for the binary digit 0. -/
def ZERO_CHAR_0 : Char := Char.ofNat 0x200C

/-- `ZERO_CHAR_1 = u"​"` (ZERO-WIDTH-SPACE), the code point standing
for the binary digit 1. -/
def ZERO_CHAR_1 : Char := Char.ofNat 0x200B

/-- `ZERO_CHAR_DENOMINATOR = u"‍"` (ZERO-WIDTH-JOINER), the separator
code point prepended in front of an embedded token. -/
def ZERO_CHAR_DENOMINATOR : Char := Char.ofNat 0x200D

/-- Digits of `"{0:b}".format(n)` for `n > 0`, most significant first
(empty for 0; `natToBin` below adds the `"0"` special case). -/
def binStr : Nat → List Char
  | 0 => []
  | (n + 1) => binStr ((n + 1) / 2) ++ [if (n + 1) % 2 = 1 then '1' else '0']
decreasing_by exact Nat.div_lt_self (Nat.succ_pos n) (by norm_num)

/-- `"{0:b}".format(n)`: the standard binary numeral of `n`, MSB first,
`"0"` for zero. -/
def natToBin (n : Nat) : List Char :=
  if n = 0 then ['0'] else binStr n

/-- Value of a string of `'0'`/`'1'` digits read MSB-first in base 2. -/
def binVal (l : List Char) : Nat :=
  l.foldl (fun acc c => 2 * acc + (if c = '1' then 1 else 0)) 0

/-- An ASCII binary digit. -/
def isBit (c : Char) : Bool :=
  c == '0' || c == '1'

/-- Python `int(s, 2)`: succeeds exactly on non-empty all-binary-digit
strings and raises `ValueError` (here: `none`) otherwise.  Python
additionally accepts surrounding whitespace, a sign, a `0b`/`0B` prefix and
digit-group underscores (e.g. `int('0b1', 2) == 1`); this model is only
applied, by every theorem below, to strings that are either non-empty and
all binary digits (where the two semantics agree and return the same
value) or contain a character that no position of a Python base-2 literal
admits, such as a lowercase letter other than `'b'` (where both raise). -/
def int2 (l : List Char) : Option Nat :=
  if l ≠ [] ∧ l.all isBit then some (binVal l) else none

/-- Per-character effect of `"{0:b}".replace('0', ZERO_CHAR_0).replace('1',
ZERO_CHAR_1)`: the two chained replaces act pointwise and independently
because `'0'`, `'1'`, `ZERO_CHAR_0`, `ZERO_CHAR_1` are four distinct
characters and neither replacement target is a later pattern. -/
def obfuscateChar (c : Char) : Char :=
  if c = '0' then ZERO_CHAR_0 else if c = '1' then ZERO_CHAR_1 else c

/-- `_obfuscate_id_binary(id_)`: format the id in binary, then replace each
binary digit by its zero-width counterpart. -/
def _obfuscate_id_binary (id_ : Nat) : List Char :=
  (natToBin id_).map obfuscateChar

/-- Result of `_resolve_obfuscated_id`: Python returns either `int(binary,
2)` or, when that raises `ValueError`, the translated string `binary`
itself. -/
inductive ResolveResult where
  | int (n : Nat)
  | str (s : List Char)
deriving DecidableEq

/-- Per-character effect of the first two chained replaces of
`_resolve_obfuscated_id` (`ZERO_CHAR_0 → '0'`, then `ZERO_CHAR_1 → '1'`):
again pointwise, because the patterns are distinct and no target equals a
later pattern. -/
def translateChar (c : Char) : Char :=
  if c = ZERO_CHAR_0 then '0' else if c = ZERO_CHAR_1 then '1' else c

/-- The three chained `.replace` calls of `_resolve_obfuscated_id`:
`ZERO_CHAR_0 → '0'`, `ZERO_CHAR_1 → '1'`, and `ZERO_CHAR_DENOMINATOR → ''`
(removal, i.e. a filter). -/
def _resolve_translate (l : List Char) : List Char :=
  (l.map translateChar).filter (fun c => c != ZERO_CHAR_DENOMINATOR)

/-- `_resolve_obfuscated_id(encoded)`: translate the zero-width characters
back to binary digits, try `int(binary, 2)`, and on `ValueError` return the
translated string instead of raising. -/
def _resolve_obfuscated_id (encoded : List Char) : ResolveResult :=
  let binary := _resolve_translate encoded
  match int2 binary with
  | some n => ResolveResult.int n
  | none => ResolveResult.str binary

/-- `insert_callback_id(query, callback_id)`:
`ZERO_CHAR_DENOMINATOR + _obfuscate_id_binary(callback_id) + query`. -/
def insert_callback_id (query : List Char) (callback_id : Nat) : List Char :=
  ZERO_CHAR_DENOMINATOR :: (_obfuscate_id_binary callback_id ++ query)

/-- Membership in the regex character class of the two zero-width digits. -/
def isZeroBit (c : Char) : Bool :=
  c == ZERO_CHAR_0 || c == ZERO_CHAR_1

/-- Drop one final `'\n'` if present — Python's `$` (without `re.MULTILINE`)
matches at the end of the string or just before a newline at the end. -/
def dropFinalNewline (l : List Char) : List Char :=
  match l.getLast? with
  | some c => if c = '\n' then l.dropLast else l
  | none => l

/-- Whether `.+?$` (no `re.DOTALL`, so `.` excludes `'\n'`) matches a
remainder in Python `re`: the remainder, with one final newline stripped,
must be non-empty and newline-free. -/
def tailMatches (u : List Char) : Bool :=
  !(dropFinalNewline u).isEmpty && (dropFinalNewline u).all (fun c => c != '\n')

/-- Group selection for the anchored pattern of `callback_id_from_query`
applied to separator-then-`rest`: the greedy one-or-more group over the
zero-width digit class backtracks from the maximal run of class characters
down to length 1, and settles on the largest length whose remainder is
matched by the trailing lazy dot-plus and end anchor.  Returns that
length. -/
def bestSplit (rest : List Char) : Option Nat :=
  (List.range (rest.takeWhile isZeroBit).length).reverse.findSome?
    (fun j => if tailMatches (rest.drop (j + 1)) then some (j + 1) else none)

/-- `callback_id_from_query(text)`: anchored `re.match` of separator, a
one-or-more group over the zero-width digit class, then lazy dot-plus and
the end anchor; on failure `None`, on success `_resolve_obfuscated_id` of
the captured group. -/
def callback_id_from_query (text : List Char) : Option ResolveResult :=
  match text with
  | [] => none
  | c :: rest =>
    if c = ZERO_CHAR_DENOMINATOR then
      match bestSplit rest with
      | some k => some (_resolve_obfuscated_id (rest.take k))
      | none => none
    else none

/-! ### Binary-numeral lemmas -/

theorem binVal_append_singleton (l : List Char) (c : Char) :
    binVal (l ++ [c]) = 2 * binVal l + (if c = '1' then 1 else 0) := by
  simp [binVal, List.foldl_append]

theorem binVal_binStr (n : Nat) : binVal (binStr n) = n := by
  induction n using Nat.strong_induction_on with
  | _ n ih =>
    match n with
    | 0 => simp [binStr, binVal]
    | (m + 1) =>
      rw [binStr, binVal_append_singleton,
        ih ((m + 1) / 2) (Nat.div_lt_self (Nat.succ_pos m) (by norm_num))]
      rcases Nat.mod_two_eq_zero_or_one (m + 1) with h | h
      · rw [h, if_neg (by decide : ¬ ((0 : Nat) = 1)),
          if_neg (by decide : ¬ ('0' = '1'))]
        omega
      · rw [h, if_pos rfl, if_pos rfl]
        omega

theorem binStr_mem_bits (n : Nat) :
    ∀ c ∈ binStr n, c = '0' ∨ c = '1' := by
  induction n using Nat.strong_induction_on with
  | _ n ih =>
    match n with
    | 0 => intro c hc; simp [binStr] at hc
    | (m + 1) =>
      intro c hc
      rw [binStr] at hc
      rcases List.mem_append.1 hc with h | h
      · exact ih ((m + 1) / 2) (Nat.div_lt_self (Nat.succ_pos m) (by norm_num)) c h
      · rcases List.mem_singleton.1 h with rfl
        rcases Nat.mod_two_eq_zero_or_one (m + 1) with h2 | h2 <;> simp [h2]

theorem natToBin_mem_bits (n : Nat) :
    ∀ c ∈ natToBin n, c = '0' ∨ c = '1' := by
  intro c hc
  unfold natToBin at hc
  by_cases h : n = 0
  · rw [if_pos h] at hc; rcases List.mem_singleton.1 hc with rfl; left; rfl
  · rw [if_neg h] at hc; exact binStr_mem_bits n c hc

theorem natToBin_ne_nil (n : Nat) : natToBin n ≠ [] := by
  unfold natToBin
  by_cases h : n = 0
  · rw [if_pos h]; simp
  · rw [if_neg h]
    match n, h with
    | (m + 1), _ => rw [binStr]; simp

theorem binVal_natToBin (n : Nat) : binVal (natToBin n) = n := by
  unfold natToBin
  by_cases h : n = 0
  · rw [if_pos h, h]; decide
  · rw [if_neg h]; exact binVal_binStr n

theorem int2_natToBin (n : Nat) : int2 (natToBin n) = some n := by
  unfold int2
  rw [if_pos, binVal_natToBin]
  refine ⟨natToBin_ne_nil n, ?_⟩
  rw [List.all_eq_true]
  intro c hc
  rcases natToBin_mem_bits n c hc with rfl | rfl <;> decide

/-- Decoding the zero-width encoding of any `n` recovers `n` (shared by the
round-trip and extraction theorems). -/
theorem resolve_obfuscate (n : Nat) :
    _resolve_obfuscated_id (_obfuscate_id_binary n) = ResolveResult.int n := by
  have htr : _resolve_translate (_obfuscate_id_binary n) = natToBin n := by
    unfold _resolve_translate _obfuscate_id_binary
    rw [List.map_map]
    have hmap : (natToBin n).map (translateChar ∘ obfuscateChar) = natToBin n := by
      have := List.map_congr_left (l := natToBin n)
        (f := translateChar ∘ obfuscateChar) (g := id)
        (fun c hc => by rcases natToBin_mem_bits n c hc with rfl | rfl <;> decide)
      rw [this, List.map_id]
    rw [hmap]
    rw [List.filter_eq_self]
    intro c hc
    rcases natToBin_mem_bits n c hc with rfl | rfl <;> decide
  unfold _resolve_obfuscated_id
  simp only [htr, int2_natToBin]

/-! ### C3 — counter-id round-trip -/

/-- C3: for every non-negative integer `n` up to the counter ceiling
`2^20 - 1`, decoding the zero-width-character encoding of `n` yields `n`
back: `_resolve_obfuscated_id(_obfuscate_id_binary(n)) == n`. -/
theorem C3_roundtrip (n : Nat) (h : n ≤ 2 ^ 20 - 1) :
    _resolve_obfuscated_id (_obfuscate_id_binary n) = ResolveResult.int n :=
  resolve_obfuscate n

theorem C3_roundtrip_witness :
    (1000 : Nat) ≤ 2 ^ 20 - 1 ∧
      _resolve_obfuscated_id (_obfuscate_id_binary 1000) =
        ResolveResult.int 1000 :=
  ⟨by norm_num, C3_roundtrip 1000 (by norm_num)⟩

/-! ### C5 — decoding a malformed token -/

/-- C5 counterexample: the claim says decoding a token containing a
character outside the two-symbol zero-width alphabet fails with a
`MalformedToken` error condition rather than returning a value.  In the
code, `int(binary, 2)`'s `ValueError` is caught and the translated string
is returned: `_resolve_obfuscated_id("a")` returns the value `"a"` — no
error condition is ever signalled. -/
theorem C5_counterexample :
    _resolve_obfuscated_id ['a'] = ResolveResult.str ['a'] := by decide

/-- C5 as amended: decoding a token containing a character outside the
two-symbol alphabet does not fail: shown for any token containing a
lowercase ASCII letter other than `'b'` (such a character is invalid in
every position of a Python base-2 literal, so `int` raises and the caught
`ValueError` makes the decoder return the translated string itself); a
caller must detect malformedness from the non-integer return value, not
from an exception.  `'b'` is excluded because Python accepts a literal
`0b` prefix — `int('0b1', 2) == 1` — so a token translating to such a
form does decode to an integer. -/
theorem C5_amended (token : List Char)
    (hbad : ∃ c ∈ token, 'a' ≤ c ∧ c ≤ 'z' ∧ c ≠ 'b') :
    (∀ n, _resolve_obfuscated_id token ≠ ResolveResult.int n) ∧
      _resolve_obfuscated_id token =
        ResolveResult.str (_resolve_translate token) := by
  obtain ⟨c, hcmem, hge, hle, -⟩ := hbad
  have hcne0 : c ≠ ZERO_CHAR_0 := by rintro rfl; exact absurd hle (by decide)
  have hcne1 : c ≠ ZERO_CHAR_1 := by rintro rfl; exact absurd hle (by decide)
  have hcneD : c ≠ ZERO_CHAR_DENOMINATOR := by
    rintro rfl; exact absurd hle (by decide)
  have htc : translateChar c = c := by
    unfold translateChar; rw [if_neg hcne0, if_neg hcne1]
  have hmem : c ∈ _resolve_translate token := by
    unfold _resolve_translate
    rw [List.mem_filter]
    refine ⟨?_, by simp [hcneD]⟩
    rw [← htc]
    exact List.mem_map_of_mem translateChar hcmem
  have hnotbit : isBit c = false := by
    have h0 : c ≠ '0' := by rintro rfl; exact absurd hge (by decide)
    have h1 : c ≠ '1' := by rintro rfl; exact absurd hge (by decide)
    unfold isBit
    simp [h0, h1]
  have hint : int2 (_resolve_translate token) = none := by
    unfold int2
    rw [if_neg]
    rintro ⟨-, hall⟩
    rw [List.all_eq_true] at hall
    have hc2 := hall c hmem
    rw [hnotbit] at hc2
    exact Bool.false_ne_true hc2
  constructor
  · intro n hn
    unfold _resolve_obfuscated_id at hn
    simp only [hint] at hn
    exact ResolveResult.noConfusion hn
  · unfold _resolve_obfuscated_id
    simp only [hint]

theorem C5_amended_witness :
    _resolve_obfuscated_id [ZERO_CHAR_0, 'q'] =
      ResolveResult.str (_resolve_translate [ZERO_CHAR_0, 'q']) :=
  (C5_amended [ZERO_CHAR_0, 'q']
    ⟨'q', by decide, by decide, by decide, by decide⟩).2

/-! ### C2 — embedding / extraction -/

theorem takeWhile_append_of_all {α : Type} {p : α → Bool} (xs ys : List α)
    (h : xs.all p = true) :
    (xs ++ ys).takeWhile p = xs ++ ys.takeWhile p := by
  induction xs with
  | nil => simp
  | cons c cs ih =>
    rw [List.all_cons, Bool.and_eq_true] at h
    simp [List.takeWhile_cons, h.1, ih h.2]

theorem obfuscate_all_zeroBits (n : Nat) :
    (_obfuscate_id_binary n).all isZeroBit = true := by
  rw [List.all_eq_true]
  intro c hc
  unfold _obfuscate_id_binary at hc
  rcases List.mem_map.1 hc with ⟨b, hb, rfl⟩
  rcases natToBin_mem_bits n b hb with rfl | rfl <;> decide

theorem obfuscate_length_pos (n : Nat) :
    (_obfuscate_id_binary n).length ≠ 0 := by
  unfold _obfuscate_id_binary
  rw [List.length_map]
  intro h0
  exact natToBin_ne_nil n (List.length_eq_zero.1 h0)

/-- The regex group settles exactly on the embedded token when the
embedded-into text `t` is itself matched by the tail of the pattern and
does not begin with a zero-width digit. -/
theorem bestSplit_insert (t : List Char) (n : Nat)
    (htail : tailMatches t = true)
    (hhead : ∀ c, t.head? = some c → isZeroBit c = false) :
    bestSplit (_obfuscate_id_binary n ++ t) =
      some (_obfuscate_id_binary n).length := by
  have htw : (_obfuscate_id_binary n ++ t).takeWhile isZeroBit
      = _obfuscate_id_binary n := by
    rw [takeWhile_append_of_all _ _ (obfuscate_all_zeroBits n)]
    have ht0 : t.takeWhile isZeroBit = [] := by
      cases t with
      | nil => rfl
      | cons c cs =>
        rw [List.takeWhile_cons, hhead c rfl]
        rfl
    rw [ht0, List.append_nil]
  unfold bestSplit
  rw [htw]
  obtain ⟨m, hm⟩ : ∃ m, (_obfuscate_id_binary n).length = m + 1 :=
    ⟨(_obfuscate_id_binary n).length - 1, by
      have := obfuscate_length_pos n; omega⟩
  rw [hm, List.range_succ, List.reverse_append, List.reverse_singleton,
    List.singleton_append, List.findSome?_cons]
  have hdrop : (_obfuscate_id_binary n ++ t).drop (m + 1) = t := by
    rw [← hm, List.drop_left]
  rw [hdrop, if_pos htail]

/-- C2 counterexample: the claim states
`callback_id_from_query(insert_callback_id(t, n)) == n` for every text `t`
and id `n`.  It fails at `t = ""`, `n = 0`: the pattern's trailing lazy
dot-plus demands at least one character after the token, so the anchored
match fails and extraction returns `None` instead of `0`. -/
theorem C2_counterexample :
    callback_id_from_query (insert_callback_id [] 0) ≠
      some (ResolveResult.int 0) := by decide

/-- C2 as amended: extraction recovers the id provided the embedded-into
text survives the tail of the anchored pattern — `t`, after stripping at
most one trailing newline, must be non-empty and newline-free (so `t`
consisting of a lone newline is excluded: there the group backtracks and
the decoded id is wrong), and `t` must not begin with one of the two
zero-width digit characters; and extraction of a text that does not begin
with the separator code point returns `None` (absence is signalled by
`None`, not by an error). -/
theorem C2_extraction :
    (∀ (t : List Char) (n : Nat), tailMatches t = true →
        (∀ c, t.head? = some c → isZeroBit c = false) →
        callback_id_from_query (insert_callback_id t n) =
          some (ResolveResult.int n)) ∧
      (∀ t : List Char, (∀ c, t.head? = some c → c ≠ ZERO_CHAR_DENOMINATOR) →
        callback_id_from_query t = none) := by
  constructor
  · intro t n htail hhead
    unfold insert_callback_id
    simp only [callback_id_from_query, if_true]
    rw [bestSplit_insert t n htail hhead]
    simp only [List.take_left]
    rw [resolve_obfuscate n]
  · intro t hhead
    cases t with
    | nil => rfl
    | cons c cs =>
      simp only [callback_id_from_query]
      rw [if_neg (hhead c rfl)]

theorem C2_extraction_witness :
    callback_id_from_query (insert_callback_id ['x'] 6) =
        some (ResolveResult.int 6) ∧
      callback_id_from_query ['y'] = none := by
  constructor
  · exact C2_extraction.1 ['x'] 6 (by decide)
      (fun c hc => by
        simp only [List.head?_cons, Option.some.injEq] at hc
        subst hc; decide)
  · exact C2_extraction.2 ['y']
      (fun c hc => by
        simp only [List.head?_cons, Option.some.injEq] at hc
        subst hc; decide)

/-! ## Callback registry — `src/telegram/ext/callbackmanager.py` -/

/-- A callback identifier: `get_next_id()` counter values (numeric) or
`create_unique_uuid()` strings. -/
inductive CbId where
  | num (n : Nat)
  | uuid (s : List Char)
deriving DecidableEq

/-- `CallbackItem.__init__`: stores the id, the action id string
(`get_action_id(action)`), the payload (`model_data`), `chat_id = None`
until the owning chat is attributed, and the `one_time_callback` flag.  The
payload type is a parameter `α`. -/
structure CallbackItem (α : Type) where
  id : CbId
  action_id : List Char
  model_data : α
  chat_id : Option Int
  one_time_callback : Bool
deriving DecidableEq

/-- The distinct failure outcomes of the registry operations.
`unboundCallback` and `chatMismatch` are the two `ValueError` raise sites of
`_check_chat` (in the mismatch branch the error-message formatting itself
dereferences a non-existent `callback_item.chat` attribute, but either way
the call fails in that branch and returns nothing); `noneAttributeError` is
the `AttributeError` from dereferencing `None` where a `CallbackItem` was
expected; `callbackNotFound` is the `CallbackNotFound` exception class. -/
inductive RegistryExc where
  | unboundCallback
  | chatMismatch
  | noneAttributeError
  | callbackNotFound
deriving DecidableEq

/-- `DictCallbackManager._check_chat(callback_item, chat_id)`.  The
parameter is an `Option` because the call site can pass `None` straight
through; Python then fails with `AttributeError` on `callback_item.chat_id`. -/
def _check_chat {α : Type} (callback_item : Option (CallbackItem α))
    (chat_id : Int) : Except RegistryExc Unit :=
  match callback_item with
  | none => Except.error RegistryExc.noneAttributeError
  | some item =>
    match item.chat_id with
    | none => Except.error RegistryExc.unboundCallback
    | some stored =>
      if stored ≠ chat_id then Except.error RegistryExc.chatMismatch
      else Except.ok ()

/-- `DictCallbackManager.lookup_callback`: `self._data.get(callback_id)`,
returned when truthy (a `CallbackItem` object is always truthy), `None`
otherwise.  The manager's `_data` dict is modelled as a map. -/
def lookup_callback {α : Type} (_data : CbId → Option (CallbackItem α))
    (callback_id : CbId) : Option (CallbackItem α) :=
  _data callback_id

/-- `DictCallbackManager.lookup_chat_bound_callback(chat_id, callback_id)`:
look the item up (with no presence check), run `_check_chat` on it, and
return the item.  Python binds the looked-up item once; the pure model
repeats the call. -/
def lookup_chat_bound_callback {α : Type}
    (_data : CbId → Option (CallbackItem α)) (chat_id : Int)
    (callback_id : CbId) : Except RegistryExc (CallbackItem α) :=
  match _check_chat (lookup_callback _data callback_id) chat_id with
  | Except.error e => Except.error e
  | Except.ok _ =>
    match lookup_callback _data callback_id with
    | some item => Except.ok item
    | none => Except.error RegistryExc.noneAttributeError

/-- `DictCallbackManager.peek_action(callback_id)`: raises
`CallbackNotFound` when the id is absent (or falsy), else returns the
stored action id. -/
def peek_action {α : Type} (_data : CbId → Option (CallbackItem α))
    (callback_id : CbId) : Except RegistryExc (List Char) :=
  match _data callback_id with
  | none => Except.error RegistryExc.callbackNotFound
  | some item => Except.ok item.action_id

/-! ### C1 — chat binding is checked before the payload is released -/

/-- C1: for every stored callback entry,
`lookup_chat_bound_callback(chat_id, callback_id)` fails with the
unbound-callback error when the entry's owning chat is still unset, fails
with the chat-mismatch error when the supplied chat differs from the stored
owner — never returning the entry — and returns the entry (with its
payload) exactly when the supplied chat equals the stored owner. -/
theorem C1_chat_binding {α : Type} (_data : CbId → Option (CallbackItem α))
    (chat_id : Int) (callback_id : CbId) (item : CallbackItem α)
    (hstored : _data callback_id = some item) :
    (item.chat_id = none →
      lookup_chat_bound_callback _data chat_id callback_id =
        Except.error RegistryExc.unboundCallback) ∧
    (∀ owner, item.chat_id = some owner → owner ≠ chat_id →
      lookup_chat_bound_callback _data chat_id callback_id =
        Except.error RegistryExc.chatMismatch) ∧
    (item.chat_id = some chat_id →
      lookup_chat_bound_callback _data chat_id callback_id =
        Except.ok item) ∧
    (∀ r, lookup_chat_bound_callback _data chat_id callback_id =
        Except.ok r → r = item ∧ item.chat_id = some chat_id) := by
  have h1 : item.chat_id = none →
      lookup_chat_bound_callback _data chat_id callback_id =
        Except.error RegistryExc.unboundCallback := by
    intro hnone
    simp only [lookup_chat_bound_callback, lookup_callback, _check_chat,
      hstored, hnone]
  have h2 : ∀ owner, item.chat_id = some owner → owner ≠ chat_id →
      lookup_chat_bound_callback _data chat_id callback_id =
        Except.error RegistryExc.chatMismatch := by
    intro owner howner hne
    simp only [lookup_chat_bound_callback, lookup_callback, _check_chat,
      hstored, howner, if_pos hne]
  have h3 : item.chat_id = some chat_id →
      lookup_chat_bound_callback _data chat_id callback_id =
        Except.ok item := by
    intro heq
    simp only [lookup_chat_bound_callback, lookup_callback, _check_chat,
      hstored, heq, if_neg (by simp : ¬ (chat_id ≠ chat_id))]
  refine ⟨h1, h2, h3, ?_⟩
  intro r hr
  cases hoc : item.chat_id with
  | none =>
    rw [h1 hoc] at hr
    exact Except.noConfusion hr
  | some owner =>
    by_cases he : owner = chat_id
    · subst he
      rw [h3 hoc] at hr
      exact ⟨(Except.ok.inj hr).symm, rfl⟩
    · rw [h2 owner hoc he] at hr
      exact Except.noConfusion hr

theorem C1_chat_binding_witness :
    lookup_chat_bound_callback
        (fun i => if i = CbId.num 1 then
          some { id := CbId.num 1, action_id := ['a'],
                 model_data := (42 : Nat), chat_id := some 7,
                 one_time_callback := false } else none)
        7 (CbId.num 1) =
      Except.ok { id := CbId.num 1, action_id := ['a'],
                  model_data := (42 : Nat), chat_id := some 7,
                  one_time_callback := false } :=
  (C1_chat_binding _ 7 (CbId.num 1) _ (by decide)).2.2.1 rfl

/-! ### C10 — absent ids do not raise `CallbackNotFound` here -/

/-- C10: calling `DictCallbackManager.lookup_chat_bound_callback` with a
callback id absent from the registry does not produce the registry's
`CallbackNotFound` condition: the missing entry (`None`) is passed directly
to `_check_chat`, which dereferences it and fails with `AttributeError`;
the operation's designed error branches only apply when the id is present. -/
theorem C10_absent_id {α : Type} (_data : CbId → Option (CallbackItem α))
    (chat_id : Int) (callback_id : CbId)
    (habsent : _data callback_id = none) :
    lookup_chat_bound_callback _data chat_id callback_id =
        Except.error RegistryExc.noneAttributeError ∧
      RegistryExc.noneAttributeError ≠ RegistryExc.callbackNotFound := by
  constructor
  · simp only [lookup_chat_bound_callback, lookup_callback, _check_chat,
      habsent]
  · decide

theorem C10_absent_id_witness :
    lookup_chat_bound_callback (fun _ => (none : Option (CallbackItem Nat)))
        0 (CbId.num 0) =
      Except.error RegistryExc.noneAttributeError :=
  (C10_absent_id (fun _ => none) 0 (CbId.num 0) rfl).1

/-! ### C4 — the shared wrapping counter (`ICallbackManager`) -/

/-- `COUNTER_RELOOP = int("1" * 20, 2)`: twenty binary ones. -/
def COUNTER_RELOOP : Nat := (int2 (List.replicate 20 '1')).getD 0

theorem COUNTER_RELOOP_eq : COUNTER_RELOOP = 2 ^ 20 - 1 := by decide

/-- The class-level initial value `id_counter = 100`. -/
def initial_id_counter : Nat := 100

/-- `ICallbackManager.get_next_id`: increment the shared class-level
counter; when the result exceeds `COUNTER_RELOOP` reset it to 0; the new
counter value is the issued id. -/
def get_next_id (id_counter : Nat) : Nat :=
  if id_counter + 1 > COUNTER_RELOOP then 0 else id_counter + 1

/-- The counter value after `k` sequential `get_next_id` calls starting
from the initial class-level counter; for `k ≥ 1` this is the `k`-th
issued id (`idSeq 0 = 100` is the initial counter, never issued). -/
def idSeq (k : Nat) : Nat :=
  get_next_id^[k] initial_id_counter

theorem pow20_eq : (2 : Nat) ^ 20 = 1048576 := by norm_num

theorem get_next_id_mod (c : Nat) (hc : c < 2 ^ 20) :
    get_next_id c = (c + 1) % 2 ^ 20 := by
  unfold get_next_id
  rw [COUNTER_RELOOP_eq, pow20_eq]
  rw [pow20_eq] at hc
  by_cases h : c + 1 > 1048576 - 1
  · rw [if_pos h]
    have h2 : c + 1 = 1048576 := by omega
    rw [h2, Nat.mod_self]
  · rw [if_neg h, Nat.mod_eq_of_lt (by omega)]

theorem idSeq_closed (k : Nat) : idSeq k = (100 + k) % 2 ^ 20 := by
  induction k with
  | zero =>
    show initial_id_counter = (100 + 0) % 2 ^ 20
    decide
  | succ k ih =>
    have hlt : idSeq k < 2 ^ 20 := by
      rw [ih, pow20_eq]
      exact Nat.mod_lt _ (by norm_num)
    show get_next_id^[k + 1] initial_id_counter = (100 + (k + 1)) % 2 ^ 20
    rw [Function.iterate_succ_apply']
    change get_next_id (idSeq k) = _
    rw [get_next_id_mod _ hlt, ih, Nat.mod_add_mod]
    rfl

theorem idSeq_ceiling (k : Nat) : idSeq k < 2 ^ 20 := by
  rw [idSeq_closed, pow20_eq]
  exact Nat.mod_lt _ (by norm_num)

/-- C4: counter-mode ids come from a shared counter with ceiling
`2^20 - 1`, wrapping to 0 on overflow: every issued id is at most
`COUNTER_RELOOP`; the issued sequence has period `2^20`, so the id issued
`2^20` positions after any given one equals it; within the first
`2^20 + 5` ids the 1st id (101) is re-issued as the `2^20 + 1`-st, and id
0 is issued (reused after the wrap) at position `2^20 - 100 ≤ 2^20 + 5`. -/
theorem C4_counter_wrap :
    (∀ c : Nat, get_next_id c ≤ COUNTER_RELOOP) ∧
      (∀ k : Nat, idSeq (k + 2 ^ 20) = idSeq k) ∧
      idSeq (2 ^ 20 + 1) = idSeq 1 ∧
      idSeq 1 = 101 ∧
      idSeq (2 ^ 20 - 100) = 0 ∧
      2 ^ 20 - 100 ≤ 2 ^ 20 + 5 := by
  refine ⟨?_, ?_, ?_, ?_, ?_, by norm_num⟩
  · intro c
    unfold get_next_id
    by_cases h : c + 1 > COUNTER_RELOOP
    · rw [if_pos h]; exact Nat.zero_le _
    · rw [if_neg h]; exact Nat.le_of_not_lt h
  · intro k
    rw [idSeq_closed, idSeq_closed, pow20_eq]
    omega
  · rw [idSeq_closed, idSeq_closed]
    decide
  · rw [idSeq_closed]
    decide
  · rw [idSeq_closed]
    decide

/-! ## ActionButton — `src/telegram/flow/actionbutton.py` -/

/-- The failure outcomes of the `ActionButton` constructor and `to_dict`,
one per `raise` site (plus `intConversion` for `int()` applied to a
non-numeric uuid id inside `insert_callback_id`). -/
inductive ButtonError where
  | captionTooLong
  | captionEmpty
  | bothSwitchInline
  | inlineFlagUnset
  | callbackMissing
  | switchOnReplyKeyboard
  | intConversion
deriving DecidableEq

/-- Python truthiness of an optional string: `None` and `''` are falsy. -/
def isTruthy (o : Option (List Char)) : Bool :=
  match o with
  | none => false
  | some s => !s.isEmpty

/-- The `ActionButton` fields the claims consult: the visible caption
(`self.text`), the two switch-inline options, the inserted callback
(`self._callback`, holding a `CallbackItem`), the structured
`callback_data` field, and the `self._is_inline` surface-kind flag
(`None` until set). -/
structure ActionButton (α : Type) where
  text : List Char
  switch_inline_query : Option (List Char)
  switch_inline_query_current_chat : Option (List Char)
  _callback : Option (CallbackItem α)
  callback_data : Option CbId
  _is_inline : Option Bool
deriving DecidableEq

/-- `ActionButton.__init__`, from the point where the caption argument has
been resolved to a string (the caption-resolution branching over `Action`
objects at lines 79-91 precedes these checks and is outside the claims'
scope): the 108-character ceiling check, the emptiness check (the `None`
member of `(None, '')` cannot apply to an already-resolved string), and
the switch-inline exclusivity check, in source order.  `_callback`,
`callback_data` and `_is_inline` start unset. -/
def ActionButton.init {α : Type} (caption : List Char)
    (switch_inline : Option (List Char))
    (switch_inline_current_chat : Option (List Char)) :
    Except ButtonError (ActionButton α) :=
  if caption.length > 108 then Except.error ButtonError.captionTooLong
  else if caption = [] then Except.error ButtonError.captionEmpty
  else if isTruthy switch_inline && isTruthy switch_inline_current_chat then
    Except.error ButtonError.bothSwitchInline
  else Except.ok
    { text := caption
      switch_inline_query := switch_inline
      switch_inline_query_current_chat := switch_inline_current_chat
      _callback := none
      callback_data := none
      _is_inline := none }

/-- `ActionButton.to_dict`, modelled as the transformation it applies to
the button's own fields before delegating to the generic attribute
serializer (the runtime `__bases__` reassignment only changes which wire
class the generic serializer mimics, not any field).  The reply-keyboard
branch calls `insert_callback_id(self.text, self._callback.id)`, whose
`int(id_)` succeeds only for numeric counter ids; a uuid id would raise in
`int()`, modelled as `intConversion`. -/
def ActionButton.to_dict {α : Type} (b : ActionButton α) :
    Except ButtonError (ActionButton α) :=
  match b._is_inline with
  | none => Except.error ButtonError.inlineFlagUnset
  | some is_inl =>
    match b._callback with
    | none => Except.error ButtonError.callbackMissing
    | some cb =>
      if (isTruthy b.switch_inline_query ||
            isTruthy b.switch_inline_query_current_chat) && !is_inl then
        Except.error ButtonError.switchOnReplyKeyboard
      else if !is_inl then
        match cb.id with
        | CbId.num n =>
          Except.ok { b with text := insert_callback_id b.text n }
        | CbId.uuid _ => Except.error ButtonError.intConversion
      else if isTruthy b.switch_inline_query then
        match cb.id with
        | CbId.num n =>
          let q := some (insert_callback_id (b.switch_inline_query.getD []) n)
          Except.ok { b with switch_inline_query := q }
        | CbId.uuid _ => Except.error ButtonError.intConversion
      else if isTruthy b.switch_inline_query_current_chat then
        match cb.id with
        | CbId.num n =>
          let q := some
            (insert_callback_id (b.switch_inline_query_current_chat.getD []) n)
          Except.ok { b with switch_inline_query_current_chat := q }
        | CbId.uuid _ => Except.error ButtonError.intConversion
      else
        Except.ok { b with callback_data := some cb.id }

/-! ### C6 — caption validation happens at construction time -/

/-- C6: `ActionButton` construction fails immediately at build time
whenever the resolved caption is longer than 108 characters or is empty,
and succeeds for every non-empty resolved caption of length at most 108
(with the remaining constructor arguments not violating the independent
switch-inline exclusivity check); the 109/108 boundary instances are in the
witness. -/
theorem C6_caption_boundary {α : Type} (caption : List Char)
    (si sic : Option (List Char))
    (hsw : ¬ (isTruthy si = true ∧ isTruthy sic = true)) :
    (caption.length > 108 →
      ActionButton.init (α := α) caption si sic =
        Except.error ButtonError.captionTooLong) ∧
    (caption = [] →
      ActionButton.init (α := α) caption si sic =
        Except.error ButtonError.captionEmpty) ∧
    (caption ≠ [] → caption.length ≤ 108 →
      ∃ b : ActionButton α,
        ActionButton.init caption si sic = Except.ok b ∧
          b.text = caption) := by
  refine ⟨?_, ?_, ?_⟩
  · intro hlen
    unfold ActionButton.init
    rw [if_pos hlen]
  · intro hnil
    unfold ActionButton.init
    rw [if_neg (by simp [hnil] : ¬ caption.length > 108), if_pos hnil]
  · intro hne hlen
    unfold ActionButton.init
    rw [if_neg (by omega : ¬ caption.length > 108), if_neg hne,
      if_neg (fun hand => hsw (by rw [Bool.and_eq_true] at hand; exact hand))]
    exact ⟨_, rfl, rfl⟩

theorem C6_caption_boundary_witness :
    (∃ b : ActionButton Nat,
        ActionButton.init (List.replicate 108 'a') none none =
            Except.ok b ∧
          b.text = List.replicate 108 'a') ∧
      ActionButton.init (α := Nat) (List.replicate 109 'a') none none =
        Except.error ButtonError.captionTooLong := by
  constructor
  · exact (C6_caption_boundary (List.replicate 108 'a') none none
      (by decide)).2.2 (by decide) (by decide)
  · exact (C6_caption_boundary (List.replicate 109 'a') none none
      (by decide)).1 (by decide)

/-! ### C7 — serialization requires kind and callback, then branches -/

/-- C7: serializing (`to_dict`) is an error when the surface kind
(`_is_inline`) has not been set, or when no callback has been inserted
beforehand; when the kind is set (and no switch-inline option is in use), a
reply-keyboard button has its caption rewritten by prepending the separator
plus the encoded callback id, whereas a plain inline button instead gets
its structured `callback_data` field set to the callback id with its
visible caption left unchanged. -/
theorem C7_to_dict {α : Type} (b : ActionButton α) :
    (b._is_inline = none →
      ActionButton.to_dict b = Except.error ButtonError.inlineFlagUnset) ∧
    (∀ v, b._is_inline = some v → b._callback = none →
      ActionButton.to_dict b = Except.error ButtonError.callbackMissing) ∧
    (∀ cb n, b._is_inline = some false → b._callback = some cb →
      cb.id = CbId.num n →
      isTruthy b.switch_inline_query = false →
      isTruthy b.switch_inline_query_current_chat = false →
      ActionButton.to_dict b =
        Except.ok { b with text := insert_callback_id b.text n }) ∧
    (∀ cb, b._is_inline = some true → b._callback = some cb →
      isTruthy b.switch_inline_query = false →
      isTruthy b.switch_inline_query_current_chat = false →
      ActionButton.to_dict b =
        Except.ok { b with callback_data := some cb.id }) := by
  refine ⟨?_, ?_, ?_, ?_⟩
  · intro hinl
    simp only [ActionButton.to_dict, hinl]
  · intro v hinl hcb
    simp only [ActionButton.to_dict, hinl, hcb]
  · intro cb n hinl hcb hid hsq hsqc
    simp only [ActionButton.to_dict, hinl, hcb, hid, hsq, hsqc]
    simp
  · intro cb hinl hcb hsq hsqc
    simp only [ActionButton.to_dict, hinl, hcb, hsq, hsqc]
    simp

theorem C7_to_dict_witness :
    ActionButton.to_dict
        (⟨['h', 'i'], none, none,
          some ⟨CbId.num 5, ['z'], (0 : Nat), none, false⟩, none,
          some false⟩ : ActionButton Nat) =
      Except.ok
        ⟨insert_callback_id ['h', 'i'] 5, none, none,
          some ⟨CbId.num 5, ['z'], (0 : Nat), none, false⟩, none,
          some false⟩ :=
  (C7_to_dict _).2.2.1 _ 5 rfl rfl rfl rfl rfl

/-! ## ActionHandler — `src/telegram/flow/actionhandler.py` -/

/-- A Python value returned by a sub-handler's `check_update`: `None`, a
bool, or any other (match) object, abstracted by a numeric tag. -/
inductive PyRes where
  | none
  | bool (b : Bool)
  | obj (n : Nat)
deriving DecidableEq

/-- `res is not None and res is not False`: everything except `None` and
`False` counts as a match. -/
def PyRes.isMatch : PyRes → Bool
  | PyRes.none => false
  | PyRes.bool false => false
  | _ => true

/-- A sub-handler as seen by the composite `ActionHandler`: only its
`check_update(update, dispatcher)` behaviour matters (the sub-handler
classes themselves live outside the repository snapshot). -/
structure SubHandler (U : Type) where
  check_update : U → PyRes

/-- `ActionHandler.__init__`'s construction of `self.sub_handlers`: a
`ReplyActionHandler` when `action.buttons`, then an `InlineActionHandler`
when `action.inline_buttons`, then a `CommandHandler` when the action is a
dedicated `Action` object carrying `commands` — in that fixed order. -/
def ActionHandler.subHandlers {U : Type}
    (buttons inline_buttons isActionObj commands : Bool)
    (replyHandler inlineHandler commandHandler : SubHandler U) :
    List (SubHandler U) :=
  ((if buttons then [replyHandler] else []) ++
    (if inline_buttons then [inlineHandler] else [])) ++
    (if isActionObj && commands then [commandHandler] else [])

/-- `ActionHandler.check_update(update, dispatcher)`: try each sub-handler
in order; for the first whose result is neither `None` nor `False`, return
the pair of that result and the sub-handler; fall through to `None` when
none matches. -/
def ActionHandler.check_update {U : Type} (sub_handlers : List (SubHandler U))
    (update : U) : Option (PyRes × SubHandler U) :=
  match sub_handlers with
  | [] => none
  | h :: rest =>
    if (h.check_update update).isMatch then some (h.check_update update, h)
    else ActionHandler.check_update rest update

theorem check_update_eq_none_iff {U : Type} (subs : List (SubHandler U))
    (u : U) :
    ActionHandler.check_update subs u = none ↔
      ∀ h ∈ subs, (h.check_update u).isMatch = false := by
  induction subs with
  | nil => simp [ActionHandler.check_update]
  | cons h rest ih =>
    by_cases hm : (h.check_update u).isMatch = true
    · simp [ActionHandler.check_update, hm]
    · rw [Bool.not_eq_true] at hm
      simp [ActionHandler.check_update, hm, ih]

/-! ### C8 — fixed sub-handler order, first match wins -/

/-- C8: the composite `ActionHandler` tries its sub-handlers in the fixed
construction order — reply-button handler, then inline-button handler,
then command handler — and returns, for the first sub-handler whose check
yields neither `None` nor `False`, the pair of that sub-handler's result
and the sub-handler itself; when no present sub-handler matches it signals
no match (`None`). -/
theorem C8_sub_handler_order {U : Type} (u : U)
    (buttons inline_buttons isActionObj commands : Bool)
    (rh ih2 ch : SubHandler U) :
    (buttons = true → (rh.check_update u).isMatch = true →
      ActionHandler.check_update
          (ActionHandler.subHandlers buttons inline_buttons isActionObj
            commands rh ih2 ch) u =
        some (rh.check_update u, rh)) ∧
    (inline_buttons = true →
      (buttons = true → (rh.check_update u).isMatch = false) →
      (ih2.check_update u).isMatch = true →
      ActionHandler.check_update
          (ActionHandler.subHandlers buttons inline_buttons isActionObj
            commands rh ih2 ch) u =
        some (ih2.check_update u, ih2)) ∧
    (isActionObj = true → commands = true →
      (buttons = true → (rh.check_update u).isMatch = false) →
      (inline_buttons = true → (ih2.check_update u).isMatch = false) →
      (ch.check_update u).isMatch = true →
      ActionHandler.check_update
          (ActionHandler.subHandlers buttons inline_buttons isActionObj
            commands rh ih2 ch) u =
        some (ch.check_update u, ch)) ∧
    ((buttons = true → (rh.check_update u).isMatch = false) →
      (inline_buttons = true → (ih2.check_update u).isMatch = false) →
      (isActionObj = true → commands = true →
        (ch.check_update u).isMatch = false) →
      ActionHandler.check_update
          (ActionHandler.subHandlers buttons inline_buttons isActionObj
            commands rh ih2 ch) u =
        none) := by
  refine ⟨?_, ?_, ?_, ?_⟩
  · intro hB hr
    subst hB
    simp [ActionHandler.subHandlers, ActionHandler.check_update, hr]
  · intro hI hBr hi
    subst hI
    cases hB : buttons with
    | false =>
      simp [ActionHandler.subHandlers, ActionHandler.check_update, hi]
    | true =>
      have hr := hBr hB
      simp [ActionHandler.subHandlers, ActionHandler.check_update, hi, hr]
  · intro hA hC hBr hIr hc
    subst hA
    subst hC
    cases hB : buttons with
    | false =>
      cases hI : inline_buttons with
      | false =>
        simp [ActionHandler.subHandlers, ActionHandler.check_update, hc]
      | true =>
        have hi := hIr hI
        simp [ActionHandler.subHandlers, ActionHandler.check_update, hc, hi]
    | true =>
      have hr := hBr hB
      cases hI : inline_buttons with
      | false =>
        simp [ActionHandler.subHandlers, ActionHandler.check_update, hc, hr]
      | true =>
        have hi := hIr hI
        simp [ActionHandler.subHandlers, ActionHandler.check_update, hc, hr,
          hi]
  · intro hBr hIr hACr
    rw [check_update_eq_none_iff]
    intro h hmem
    simp only [ActionHandler.subHandlers, List.mem_append] at hmem
    rcases hmem with (hm | hm) | hm
    · cases hB : buttons with
      | false => rw [hB] at hm; simp at hm
      | true =>
        rw [hB] at hm
        simp at hm
        subst hm
        exact hBr hB
    · cases hI : inline_buttons with
      | false => rw [hI] at hm; simp at hm
      | true =>
        rw [hI] at hm
        simp at hm
        subst hm
        exact hIr hI
    · cases hAC : (isActionObj && commands) with
      | false => rw [hAC] at hm; simp at hm
      | true =>
        rw [hAC] at hm
        simp at hm
        subst hm
        rw [Bool.and_eq_true] at hAC
        exact hACr hAC.1 hAC.2

theorem C8_sub_handler_order_witness :
    ActionHandler.check_update
        (ActionHandler.subHandlers true true true true
          (⟨fun _ => PyRes.none⟩ : SubHandler Nat)
          ⟨fun _ => PyRes.bool true⟩ ⟨fun _ => PyRes.obj 9⟩) 0 =
      some (PyRes.bool true, ⟨fun _ => PyRes.bool true⟩) :=
  (C8_sub_handler_order 0 true true true true ⟨fun _ => PyRes.none⟩
      ⟨fun _ => PyRes.bool true⟩ ⟨fun _ => PyRes.obj 9⟩).2.1
    rfl (fun _ => rfl) rfl

/-! ## ChosenInlineActionHandler —
`src/telegram/flow/choseninlineactionhandler.py` -/

/-- The `chosen_inline_result` payload field consulted by the handler. -/
structure InlineResult where
  result_id : CbId
deriving DecidableEq

/-- A message payload (only its presence matters to `check_update`). -/
structure TgMessage where
  from_user_id : Int
deriving DecidableEq

/-- The fields of `telegram.Update` consulted by
`ChosenInlineActionHandler.check_update`. -/
structure TgUpdate where
  chosen_inline_result : Option InlineResult
  message : Option TgMessage
deriving DecidableEq

/-- The state of a `ChosenInlineActionHandler`: its configured action id
(`get_action_id(action)`) and the `__most_recent_updates` deque
(`maxlen=3`, most recent first). -/
structure ChosenInlineActionHandler where
  action_id : List Char
  most_recent_updates : List TgUpdate
deriving DecidableEq

/-- `ChosenInlineActionHandler.check_update(update, dispatcher)`: on a
chosen-inline-result update, classify it via the dispatcher's callback
manager's `peek_action` (a read-only dict lookup on the registry, whose
`CallbackNotFound` propagates) and return whether the action ids agree; on
a plain message update, `appendleft` the update onto the bounded
`__most_recent_updates` deque — mutating the handler — and return `None`;
otherwise return `None`.  The result pairs the Python return value (or the
propagated exception) with the handler state after the call; the registry
map is consulted but never written. -/
def ChosenInlineActionHandler.check_update {α : Type}
    (self : ChosenInlineActionHandler)
    (_data : CbId → Option (CallbackItem α)) (update : TgUpdate) :
    Except RegistryExc (Option Bool) × ChosenInlineActionHandler :=
  match update.chosen_inline_result with
  | some r =>
    match peek_action _data r.result_id with
    | Except.error e => (Except.error e, self)
    | Except.ok aid => (Except.ok (some (aid == self.action_id)), self)
  | none =>
    match update.message with
    | some _ =>
      let deque := (update :: self.most_recent_updates).take 3
      (Except.ok none, { self with most_recent_updates := deque })
    | none => (Except.ok none, self)

/-! ### C9 — matching is not always mutation-free -/

/-- C9 counterexample: the claim says the match step (`check_update`)
leaves all shared state — in particular handler-internal state —
unchanged for every handler and update.  `ChosenInlineActionHandler`
deliberately records plain message updates in its internal
`__most_recent_updates` buffer during matching: on a message update the
handler state after `check_update` differs from the state before. -/
theorem C9_counterexample :
    (ChosenInlineActionHandler.check_update
        { action_id := ['1'], most_recent_updates := [] }
        (fun _ => (none : Option (CallbackItem Nat)))
        { chosen_inline_result := none,
          message := some { from_user_id := 0 } }).2 ≠
      { action_id := ['1'], most_recent_updates := [] } := by
  decide

/-- C9 as amended: matching consults but never writes the registry map,
and `ChosenInlineActionHandler.check_update` leaves the handler unchanged
on chosen-inline-result updates and on updates carrying neither a chosen
result nor a message; but on a plain message update it mutates its own
internal buffer, pushing the update onto the three-element
`__most_recent_updates` deque (its configured action id still never
changes).  (`ActionHandler.check_update` itself only folds over its
sub-handlers' results and holds no mutable state of its own.) -/
theorem C9_match_mutation {α : Type} (self : ChosenInlineActionHandler)
    (_data : CbId → Option (CallbackItem α)) (update : TgUpdate) :
    (∀ r, update.chosen_inline_result = some r →
      (ChosenInlineActionHandler.check_update self _data update).2 = self) ∧
    (update.chosen_inline_result = none → update.message = none →
      (ChosenInlineActionHandler.check_update self _data update).2 = self) ∧
    (∀ m, update.chosen_inline_result = none → update.message = some m →
      (ChosenInlineActionHandler.check_update self _data update).2 =
        { self with most_recent_updates :=
            (update :: self.most_recent_updates).take 3 }) ∧
    ((ChosenInlineActionHandler.check_update self _data update).2.action_id =
      self.action_id) := by
  refine ⟨?_, ?_, ?_, ?_⟩
  · intro r hr
    simp only [ChosenInlineActionHandler.check_update, hr]
    cases peek_action _data r.result_id <;> rfl
  · intro hr hm
    simp only [ChosenInlineActionHandler.check_update, hr, hm]
  · intro m hr hm
    simp only [ChosenInlineActionHandler.check_update, hr, hm]
  · cases hr : update.chosen_inline_result with
    | some r =>
      simp only [ChosenInlineActionHandler.check_update, hr]
      cases peek_action _data r.result_id <;> rfl
    | none =>
      cases hm : update.message with
      | some m =>
        simp only [ChosenInlineActionHandler.check_update, hr, hm]
      | none =>
        simp only [ChosenInlineActionHandler.check_update, hr, hm]

theorem C9_match_mutation_witness :
    (ChosenInlineActionHandler.check_update
        { action_id := ['1'], most_recent_updates := [] }
        (fun _ => (none : Option (CallbackItem Nat)))
        { chosen_inline_result := some { result_id := CbId.num 2 },
          message := none }).2 =
      { action_id := ['1'], most_recent_updates := [] } :=
  (C9_match_mutation _ _ _).1 { result_id := CbId.num 2 } rfl
